import Mathlib

/-!
Verification of the bootstrap layer of a chat-platform bot
(`src/config.py` and `src/bot.py`): configuration loading from
environment variables, one-time command synchronization and startup
notification on the ready event, the audio-node health-check loop,
the command error handlers, and the rolling audit buffer.

The environment is modelled as a partial map from variable names to
string values, representing `os.environ` after the optional `.env`
merge at the top of `load_config` (lines 19-36 of `config.py`).
Python string operations used by the loader (`strip`, `isdigit`,
`lower`, `int` on digit strings, truthiness and `or`) are modelled on
ASCII text.
-/

/-- Whitespace characters stripped by Python `str.strip()` (ASCII part). -/
def isPyWS (c : Char) : Bool :=
  c == ' ' || c == '\t' || c == '\n' || c == '\r' || c == '\x0b' || c == '\x0c'

/-- Python `s.strip()`: remove leading and trailing whitespace. -/
def pyStrip (s : String) : String :=
  String.mk (((s.data.dropWhile isPyWS).reverse.dropWhile isPyWS).reverse)

/-- Python `s.isdigit()` (ASCII digits): nonempty and all digits. -/
def pyIsDigit (s : String) : Bool :=
  !s.data.isEmpty && s.data.all Char.isDigit

/-- Python `int(s)` for a digit string. -/
def strToNat (s : String) : Nat :=
  s.data.foldl (fun a c => a * 10 + (c.toNat - 48)) 0

/-- Python `x or d` where `x : str | None`: `None` and the empty string are falsy. -/
def pyOrStr (o : Option String) (d : String) : String :=
  match o with
  | none => d
  | some s => if s = "" then d else s

/-- Python `s.lower()` (ASCII). -/
def pyLower (s : String) : String :=
  String.mk (s.data.map Char.toLower)

/-- The process environment: a partial map from variable names to values. -/
def Env : Type := String → Option String

/-- `config.py` lines 38-43: return the stripped value of the first listed
variable that is set to a non-blank string, else the default. -/
def getenv_any (env : Env) (keys : List String) (default : Option String) :
    Option String :=
  match keys with
  | [] => default
  | k :: ks =>
    match env k with
    | some v => if pyStrip v = "" then getenv_any env ks default else some (pyStrip v)
    | none => getenv_any env ks default

/-- `config.py` line 45: `getenv_any([...], "") or ""`. -/
def tokenRes (env : Env) : String :=
  pyOrStr (getenv_any env ["DISCORD_TOKEN", "TOKEN", "BOT_TOKEN"] (some "")) ""

/-- `config.py` line 46: the raw application-id string. -/
def appIdValRes (env : Env) : String :=
  pyOrStr (getenv_any env ["APP_ID", "APPLICATION_ID", "CLIENT_ID"] (some "0")) "0"

/-- `config.py` line 47: the raw owner-id string. -/
def ownerIdValRes (env : Env) : String :=
  pyOrStr (getenv_any env ["OWNER_ID", "OWNER", "BOT_OWNER"] (some "0")) "0"

/-- `config.py` line 49: `int(app_id_val) if app_id_val.isdigit() else 0`. -/
def appIdRes (env : Env) : Nat :=
  if pyIsDigit (appIdValRes env) then strToNat (appIdValRes env) else 0

/-- `config.py` line 50: `int(owner_id_val) if owner_id_val.isdigit() else 0`. -/
def ownerIdRes (env : Env) : Nat :=
  if pyIsDigit (ownerIdValRes env) then strToNat (ownerIdValRes env) else 0

/-- `config.py` lines 48 and 51: optional guild id, `None` unless the resolved
string is truthy and all digits. -/
def guildIdRes (env : Env) : Option Nat :=
  match getenv_any env ["GUILD_ID", "SERVER_ID", "GUILD"] none with
  | some g => if g ≠ "" ∧ pyIsDigit g = true then some (strToNat g) else none
  | none => none

/-- `config.py` line 52: `getenv_any(["SYNC_GLOBAL"], "false").lower() in ("true", "1", "yes")`. -/
def syncGlobalRes (env : Env) : Bool :=
  let s := pyLower ((getenv_any env ["SYNC_GLOBAL"] (some "false")).getD "false")
  s == "true" || s == "1" || s == "yes"

/-- `config.py` line 53. -/
def ytCookiesRes (env : Env) : Option String :=
  getenv_any env ["YT_COOKIES", "YOUTUBE_COOKIES"] none

/-- `config.py` line 56. -/
def lavalinkHostRes (env : Env) : String :=
  pyOrStr (getenv_any env ["LAVALINK_HOST"] (some "localhost")) "localhost"

/-- `config.py` lines 57-58. -/
def lavalinkPortRes (env : Env) : Nat :=
  let s := pyOrStr (getenv_any env ["LAVALINK_PORT"] (some "2333")) "2333"
  if pyIsDigit s then strToNat s else 2333

/-- `config.py` line 59. -/
def lavalinkPasswordRes (env : Env) : String :=
  pyOrStr (getenv_any env ["LAVALINK_PASSWORD"] (some "youshallnotpass")) "youshallnotpass"

/-- `config.py` lines 5-15: the immutable configuration record. -/
structure BotConfig where
  token : String
  app_id : Nat
  owner_id : Nat
  guild_id : Option Nat
  sync_global : Bool
  yt_cookies : Option String
  lavalink_host : String
  lavalink_port : Nat
  lavalink_password : String
deriving Repr, DecidableEq

/-- `config.py` lines 45-82: resolve every field, then validate the three
required fields (`if not token`, `if not app_id`, `if not owner_id`,
raising `ValueError`), else return the populated record. -/
def load_config (env : Env) : Except String BotConfig :=
  let token := tokenRes env
  let app_id := appIdRes env
  let owner_id := ownerIdRes env
  if token = "" then
    Except.error "DISCORD_TOKEN is required but not found in environment variables or .env file"
  else if app_id = 0 then
    Except.error "APP_ID is required but not found in environment variables or .env file"
  else if owner_id = 0 then
    Except.error "OWNER_ID is required but not found in environment variables or .env file"
  else
    Except.ok
      { token := token
        app_id := app_id
        owner_id := owner_id
        guild_id := guildIdRes env
        sync_global := syncGlobalRes env
        yt_cookies := ytCookiesRes env
        lavalink_host := lavalinkHostRes env
        lavalink_port := lavalinkPortRes env
        lavalink_password := lavalinkPasswordRes env }

/-- An environment entry that `getenv_any` skips: unset, or blank after stripping. -/
def isBlankOpt (o : Option String) : Bool :=
  match o with
  | none => true
  | some w => pyStrip w == ""

def envC1zero : Env := fun k =>
  if k = "DISCORD_TOKEN" then some "x" else
  if k = "APP_ID" then some "0" else
  if k = "OWNER_ID" then some "5" else none

def envC1ok : Env := fun k =>
  if k = "DISCORD_TOKEN" then some " x " else
  if k = "APP_ID" then some "123" else
  if k = "OWNER_ID" then some "77" else none

/-- Claim C1 (counterexample): with the token set, `APP_ID` set to the numeric
string `"0"` and `OWNER_ID` set to `"5"`, all three required fields are
present, non-empty and numeric, yet `load_config` raises the `APP_ID`
validation error instead of returning a configuration record: the loader
rejects a numeric id whose value is zero. -/
theorem load_config_zero_app_id :
    load_config envC1zero =
      Except.error "APP_ID is required but not found in environment variables or .env file" := by
  rfl

/-- Claim C1 (amended): a required field that resolves to a non-numeric string
coerces to 0; `load_config` raises the descriptive `ValueError` for an empty
token, then for an application id of 0 (absent, empty, non-numeric, or the
literal value 0), then for an owner id of 0; when the token is non-empty and
both ids are nonzero it returns the populated `BotConfig`. -/
theorem load_config_required_fields (env : Env) :
    (pyIsDigit (appIdValRes env) = false → appIdRes env = 0)
    ∧ (pyIsDigit (ownerIdValRes env) = false → ownerIdRes env = 0)
    ∧ (tokenRes env = "" →
        load_config env =
          Except.error "DISCORD_TOKEN is required but not found in environment variables or .env file")
    ∧ (tokenRes env ≠ "" → appIdRes env = 0 →
        load_config env =
          Except.error "APP_ID is required but not found in environment variables or .env file")
    ∧ (tokenRes env ≠ "" → appIdRes env ≠ 0 → ownerIdRes env = 0 →
        load_config env =
          Except.error "OWNER_ID is required but not found in environment variables or .env file")
    ∧ (tokenRes env ≠ "" → appIdRes env ≠ 0 → ownerIdRes env ≠ 0 →
        load_config env =
          Except.ok
            { token := tokenRes env
              app_id := appIdRes env
              owner_id := ownerIdRes env
              guild_id := guildIdRes env
              sync_global := syncGlobalRes env
              yt_cookies := ytCookiesRes env
              lavalink_host := lavalinkHostRes env
              lavalink_port := lavalinkPortRes env
              lavalink_password := lavalinkPasswordRes env }) := by
  refine ⟨?_, ?_, ?_, ?_, ?_, ?_⟩
  · intro h; simp [appIdRes, h]
  · intro h; simp [ownerIdRes, h]
  · intro h; simp [load_config, h]
  · intro h1 h2; simp [load_config, h1, h2]
  · intro h1 h2 h3; simp [load_config, h1, h2, h3]
  · intro h1 h2 h3; simp [load_config, h1, h2, h3]

/-- Claim C1 (witness): a fully valid environment loads, and the token value
is stripped of surrounding whitespace. -/
theorem load_config_required_fields_witness :
    load_config envC1ok =
      Except.ok
        { token := "x", app_id := 123, owner_id := 77, guild_id := none,
          sync_global := false, yt_cookies := none, lavalink_host := "localhost",
          lavalink_port := 2333, lavalink_password := "youshallnotpass" } := by
  have h :=
    (load_config_required_fields envC1ok).2.2.2.2.2 (by decide) (by decide) (by decide)
  exact h.trans (by rfl)

/-- Claim C8: when the listed environment variables before `k` are all unset
or blank and `k` is set to a non-blank value `v`, `getenv_any` returns the
stripped value of `k`: the first alias in priority order wins. -/
theorem getenv_any_first_alias_wins (env : Env) (pre post : List String)
    (k v : String) (default : Option String)
    (hpre : ∀ k' ∈ pre, isBlankOpt (env k') = true)
    (hk : env k = some v) (hv : pyStrip v ≠ "") :
    getenv_any env (pre ++ k :: post) default = some (pyStrip v) := by
  induction pre with
  | nil => simp [getenv_any, hk, hv]
  | cons p ps ih =>
    have hp := hpre p (List.mem_cons_self _ _)
    have hrest : ∀ k' ∈ ps, isBlankOpt (env k') = true :=
      fun k' hm => hpre k' (List.mem_cons_of_mem _ hm)
    cases hep : env p with
    | none => simpa [getenv_any, hep] using ih hrest
    | some w =>
      have hw : pyStrip w = "" := by simpa [isBlankOpt, hep] using hp
      simpa [getenv_any, hep, hw] using ih hrest

def envC8 : Env := fun k => if k = "TOKEN" then some "abc123" else none

/-- Claim C8 (witness): with `TOKEN=abc123` set and `DISCORD_TOKEN` unset, the
token alias list resolves to `abc123`. -/
theorem getenv_any_first_alias_wins_witness :
    getenv_any envC8 ["DISCORD_TOKEN", "TOKEN", "BOT_TOKEN"] (some "") = some "abc123"
    ∧ tokenRes envC8 = "abc123" := by
  constructor
  · have h :=
      getenv_any_first_alias_wins envC8 ["DISCORD_TOKEN"] ["BOT_TOKEN"]
        "TOKEN" "abc123" (some "") (by decide) (by rfl) (by decide)
    exact h.trans (by rfl)
  · rfl

/-- Claim C10: a variable set to an empty or whitespace-only string is treated
as unset (resolution skips it and falls through), and every value returned
from an environment variable is the stripped form of the raw value. -/
theorem getenv_any_blank_as_unset (env : Env) (default : Option String) :
    (∀ k ks, isBlankOpt (env k) = true →
      getenv_any env (k :: ks) default = getenv_any env ks default)
    ∧ (∀ keys r, getenv_any env keys default = some r →
        some r = default ∨ ∃ k ∈ keys, ∃ v, env k = some v ∧ pyStrip v ≠ "" ∧ r = pyStrip v) := by
  constructor
  · intro k ks hb
    cases hek : env k with
    | none => simp [getenv_any, hek]
    | some w =>
      have hw : pyStrip w = "" := by simpa [isBlankOpt, hek] using hb
      simp [getenv_any, hek, hw]
  · intro keys
    induction keys with
    | nil =>
      intro r h
      left
      simpa [getenv_any] using h.symm
    | cons k ks ih =>
      intro r h
      cases hek : env k with
      | none =>
        rcases ih r (by simpa [getenv_any, hek] using h) with h1 | ⟨k', hk', hv⟩
        · exact Or.inl h1
        · exact Or.inr ⟨k', List.mem_cons_of_mem _ hk', hv⟩
      | some w =>
        by_cases hw : pyStrip w = ""
        · rcases ih r (by simpa [getenv_any, hek, hw] using h) with h1 | ⟨k', hk', hv⟩
          · exact Or.inl h1
          · exact Or.inr ⟨k', List.mem_cons_of_mem _ hk', hv⟩
        · right
          refine ⟨k, List.mem_cons_self _ _, w, hek, hw, ?_⟩
          have h2 := h
          simp [getenv_any, hek, hw] at h2
          exact h2.symm

def envC10 : Env := fun k =>
  if k = "A" then some "   " else if k = "B" then some "  x  " else none

/-- Claim C10 (witness): a whitespace-only value for `A` is skipped and the
value of `B` is returned stripped. -/
theorem getenv_any_blank_as_unset_witness :
    getenv_any envC10 ["A", "B"] none = getenv_any envC10 ["B"] none
    ∧ getenv_any envC10 ["A", "B"] none = some "x" := by
  constructor
  · exact (getenv_any_blank_as_unset envC10 none).1 "A" ["B"] (by decide)
  · rfl

/-- `bot.py` line 44: capacity of the rolling audit buffer, `deque(maxlen=2000)`. -/
def auditMaxlen : Nat := 2000

/-- Python `deque.append` under a `maxlen` bound: add the entry at the right
(newest) end; when the deque is full the leftmost (oldest) entry is evicted.
The buffer is represented oldest-first. -/
def dequeAppend {α : Type} (cap : Nat) (b : List α) (e : α) : List α :=
  if b.length < cap then b ++ [e] else b.tail ++ [e]

/-- Insert a sequence of entries into an initially empty audit buffer. -/
def auditPushAll {α : Type} (es : List α) : List α :=
  es.foldl (dequeAppend auditMaxlen) []

lemma foldl_dequeAppend_eq_drop {α : Type} (cap : Nat) (hcap : 0 < cap) (es : List α) :
    ∀ b : List α, b.length ≤ cap →
      es.foldl (dequeAppend cap) b = (b ++ es).drop (b.length + es.length - cap) := by
  induction es with
  | nil =>
    intro b hb
    simp [Nat.sub_eq_zero_of_le hb]
  | cons e es ih =>
    intro b hb
    rw [List.foldl_cons]
    by_cases h : b.length < cap
    · have hb' : (b ++ [e]).length ≤ cap := by simp; omega
      rw [show dequeAppend cap b e = b ++ [e] from if_pos h, ih (b ++ [e]) hb']
      have e1 : (b ++ [e]) ++ es = b ++ e :: es := by simp
      have e2 : (b ++ [e]).length + es.length - cap = b.length + (e :: es).length - cap := by
        simp; omega
      rw [e1, e2]
    · have hlen : b.length = cap := by omega
      cases b with
      | nil => simp at hlen; omega
      | cons hd tl =>
        have htlen : tl.length + 1 = cap := by simpa using hlen
        have htl : (tl ++ [e]).length ≤ cap := by simp; omega
        rw [show dequeAppend cap (hd :: tl) e = tl ++ [e] from if_neg h,
          ih (tl ++ [e]) htl]
        have e1 : (tl ++ [e]) ++ es = tl ++ e :: es := by simp
        have e2 : (tl ++ [e]).length + es.length - cap = es.length := by simp; omega
        have e3 : (hd :: tl).length + (e :: es).length - cap = es.length + 1 := by
          simp; omega
        rw [e1, e2, e3, List.cons_append, List.drop_succ_cons]

lemma auditPushAll_eq_drop {α : Type} (es : List α) :
    auditPushAll es = es.drop (es.length - auditMaxlen) := by
  have h := foldl_dequeAppend_eq_drop auditMaxlen (by decide) es [] (by simp)
  simpa [auditPushAll] using h

/-- Claim C9: the audit buffer never grows past its capacity 2000, and after
inserting capacity + 1 pairwise-distinct entries the oldest entry has been
evicted while the newest entry is present. -/
theorem audit_buffer_capacity (es : List Nat) (e0 eN : Nat)
    (hlen : es.length = auditMaxlen + 1) (hnd : es.Nodup)
    (h0 : es.head? = some e0) (hN : es.getLast? = some eN) :
    (∀ fs : List Nat, (auditPushAll fs).length ≤ auditMaxlen)
    ∧ e0 ∉ auditPushAll es
    ∧ eN ∈ auditPushAll es := by
  have hcap : 0 < auditMaxlen := by decide
  refine ⟨?_, ?_, ?_⟩
  · intro fs
    rw [auditPushAll_eq_drop fs]
    simp [List.length_drop]
    omega
  all_goals
    have hes : auditPushAll es = es.drop 1 := by
      rw [auditPushAll_eq_drop es, hlen]
      norm_num [auditMaxlen]
  · cases es with
    | nil => simp at hlen
    | cons a t =>
      simp only [List.head?_cons, Option.some.injEq] at h0
      subst h0
      rw [hes]
      simp only [List.drop_succ_cons, List.drop_zero]
      exact (List.nodup_cons.mp hnd).1
  · cases es with
    | nil => simp at hlen
    | cons a t =>
      cases t with
      | nil => simp at hlen; omega
      | cons b t' =>
        rw [List.getLast?_cons_cons] at hN
        have hmem : eN ∈ (b :: t').getLast? := by simp [hN]
        obtain ⟨hne, heq⟩ := List.mem_getLast?_eq_getLast hmem
        rw [hes]
        simp only [List.drop_succ_cons, List.drop_zero]
        rw [heq]
        exact List.getLast_mem hne

/-- Claim C9 (witness): inserting the 2001 distinct entries 0, 1, ..., 2000
leaves a buffer of at most 2000 entries in which the oldest entry 0 is absent
and the newest entry 2000 is present. -/
theorem audit_buffer_capacity_witness :
    (auditPushAll (List.range (auditMaxlen + 1))).length ≤ auditMaxlen
    ∧ 0 ∉ auditPushAll (List.range (auditMaxlen + 1))
    ∧ 2000 ∈ auditPushAll (List.range (auditMaxlen + 1)) := by
  have h :=
    audit_buffer_capacity (List.range (auditMaxlen + 1)) 0 2000
      (by simp) (List.nodup_range _)
      (by rw [List.range_succ_eq_map]; rfl)
      (by rw [show auditMaxlen + 1 = 2000 + 1 from rfl, List.range_succ]
          exact List.getLast?_concat _)
  exact ⟨h.1 _, h.2.1, h.2.2⟩

/-!
Model of the ready-event handler (`bot.py` lines 187-223) and the scheduled
startup-DM task (`bot.py` lines 225-258). Each handler invocation and each
task run is a single cooperative step of the event loop; ready events may
fire repeatedly (reconnects), and a scheduled DM task runs at some later
step. `syncOk`/`sendOk` say whether the awaited platform call inside the
step succeeds or raises (the handlers catch and log every failure). -/

/-- Observable platform calls made by the modelled steps: a global
`tree.sync()`, a guild-scoped `tree.sync(guild=...)`, or a delivered
startup direct message. -/
inductive BotOut : Type
  | globalSync : BotOut
  | guildSync (gid : Nat) : BotOut
  | dmSend : BotOut
deriving Repr, DecidableEq

/-- Python truthiness of `self.config.guild_id` (`bot.py` line 206):
`None` and `0` are falsy. -/
def guildTruthy : Option Nat → Bool
  | none => false
  | some gid => gid != 0

/-- The session state set in `Bot.__init__`: the one-time per-guild sync flag
(line 37), the startup-DM sent flag (line 40), and the number of scheduled
`_send_startup_dm` tasks that have not yet run. -/
structure BotState where
  synced_per_guild : Bool
  startup_dm_sent : Bool
  pendingDM : Nat
deriving Repr, DecidableEq

/-- `Bot.__init__`: both flags start false and no DM task is scheduled. -/
def initBotState : BotState := ⟨false, false, 0⟩

/-- `bot.py` lines 197-216: the command-sync section of `on_ready`. In global
mode `tree.sync()` is called unconditionally; otherwise, when the configured
guild id is truthy and the per-guild flag is unset, `tree.sync(guild=...)` is
called and the flag is set only if the call returned (an exception is caught
by the surrounding `try` before the assignment on line 211 runs). -/
def syncPart (cfg : BotConfig) (syncOk : Bool) (s : BotState) : BotState × List BotOut :=
  if cfg.sync_global then
    (s, [BotOut.globalSync])
  else if guildTruthy cfg.guild_id && !s.synced_per_guild then
    (if syncOk then { s with synced_per_guild := true } else s,
     [BotOut.guildSync (cfg.guild_id.getD 0)])
  else
    (s, [])

/-- `bot.py` lines 218-220: schedule `_send_startup_dm` as a background task
unless the sent-flag is already set. -/
def dmSchedule (s : BotState) : BotState :=
  if s.startup_dm_sent then s else { s with pendingDM := s.pendingDM + 1 }

/-- One firing of `on_ready`: the sync section, then the DM scheduling. -/
def readyStep (cfg : BotConfig) (syncOk : Bool) (s : BotState) : BotState × List BotOut :=
  ((dmSchedule (syncPart cfg syncOk s).1), (syncPart cfg syncOk s).2)

/-- One scheduled `_send_startup_dm` task runs (`bot.py` lines 225-258): on
success the DM is delivered and the sent-flag is set (line 255); on failure
the exception is caught and the flag stays unset (lines 257-258). The task
body never re-checks the flag before sending. -/
def dmTaskStep (sendOk : Bool) (s : BotState) : BotState × List BotOut :=
  if s.pendingDM = 0 then
    (s, [])
  else if sendOk then
    ({ s with pendingDM := s.pendingDM - 1, startup_dm_sent := true }, [BotOut.dmSend])
  else
    ({ s with pendingDM := s.pendingDM - 1 }, [])

/-- Events the event loop can dispatch: a ready event, or a run of one
scheduled startup-DM task. -/
inductive BotEv : Type
  | ready (syncOk : Bool) : BotEv
  | dmRun (sendOk : Bool) : BotEv
deriving Repr, DecidableEq

def botStep (cfg : BotConfig) (s : BotState) : BotEv → BotState × List BotOut
  | BotEv.ready ok => readyStep cfg ok s
  | BotEv.dmRun ok => dmTaskStep ok s

/-- Run a sequence of events from a state, collecting the platform calls. -/
def botRun (cfg : BotConfig) (s : BotState) : List BotEv → BotState × List BotOut
  | [] => (s, [])
  | e :: es =>
    ((botRun cfg (botStep cfg s e).1 es).1,
     (botStep cfg s e).2 ++ (botRun cfg (botStep cfg s e).1 es).2)

def isGlobalSync : BotOut → Bool
  | BotOut.globalSync => true
  | _ => false

def isGuildSync : BotOut → Bool
  | BotOut.guildSync _ => true
  | _ => false

def isDmSend : BotOut → Bool
  | BotOut.dmSend => true
  | _ => false

def isReadyEv : BotEv → Bool
  | BotEv.ready _ => true
  | _ => false

/-- Every `tree.sync` call in the trace succeeds. -/
def allSyncOk (tr : List BotEv) : Bool :=
  tr.all fun e =>
    match e with
    | BotEv.ready ok => ok
    | BotEv.dmRun _ => true

lemma syncPart_dm_fields (cfg : BotConfig) (ok : Bool) (s : BotState) :
    (syncPart cfg ok s).1.startup_dm_sent = s.startup_dm_sent
    ∧ (syncPart cfg ok s).1.pendingDM = s.pendingDM := by
  unfold syncPart
  split_ifs <;> simp

lemma syncPart_synced_true (cfg : BotConfig) (ok : Bool) (s : BotState)
    (hf : s.synced_per_guild = true) :
    (syncPart cfg ok s).1 = s ∧ (cfg.sync_global = false → (syncPart cfg ok s).2 = []) := by
  unfold syncPart
  cases hsg : cfg.sync_global with
  | true => simp [hf]
  | false => simp [hf]

lemma syncPart_no_dm (cfg : BotConfig) (ok : Bool) (s : BotState) :
    (syncPart cfg ok s).2.countP isDmSend = 0 := by
  unfold syncPart
  split_ifs <;> simp [isDmSend]

lemma syncPart_no_global (cfg : BotConfig) (ok : Bool) (s : BotState)
    (h : cfg.sync_global = false) :
    (syncPart cfg ok s).2.countP isGlobalSync = 0 := by
  unfold syncPart
  rw [h]
  split_ifs <;> simp_all [isGlobalSync]

lemma dmSchedule_fields (s : BotState) :
    (dmSchedule s).synced_per_guild = s.synced_per_guild
    ∧ (dmSchedule s).startup_dm_sent = s.startup_dm_sent := by
  unfold dmSchedule
  split_ifs <;> simp

lemma dmTaskStep_fields (ok : Bool) (s : BotState) :
    (dmTaskStep ok s).1.synced_per_guild = s.synced_per_guild
    ∧ (dmTaskStep ok s).2.countP isGuildSync = 0
    ∧ (dmTaskStep ok s).2.countP isGlobalSync = 0 := by
  unfold dmTaskStep
  split_ifs <;> simp [isGuildSync, isGlobalSync]

lemma botRun_global_count (cfg : BotConfig) (h : cfg.sync_global = true) :
    ∀ (tr : List BotEv) (s : BotState),
      (botRun cfg s tr).2.countP isGlobalSync = tr.countP isReadyEv := by
  intro tr
  induction tr with
  | nil => intro s; simp [botRun]
  | cons e es ih =>
    intro s
    cases e with
    | ready ok =>
      have hs : syncPart cfg ok s = (s, [BotOut.globalSync]) := by
        unfold syncPart; simp [h]
      simp [botRun, botStep, readyStep, hs, List.countP_append, List.countP_cons, ih,
        isGlobalSync, isReadyEv]
    | dmRun ok =>
      have hd := dmTaskStep_fields ok s
      simp [botRun, botStep, List.countP_append, List.countP_cons, ih, hd.2.2, isReadyEv]

lemma botRun_no_global (cfg : BotConfig) (h : cfg.sync_global = false) :
    ∀ (tr : List BotEv) (s : BotState),
      (botRun cfg s tr).2.countP isGlobalSync = 0 := by
  intro tr
  induction tr with
  | nil => intro s; simp [botRun]
  | cons e es ih =>
    intro s
    cases e with
    | ready ok =>
      simp [botRun, botStep, readyStep, List.countP_append, ih,
        syncPart_no_global cfg ok s h]
    | dmRun ok =>
      have hd := dmTaskStep_fields ok s
      simp [botRun, botStep, List.countP_append, ih, hd.2.2]

lemma botRun_after_synced (cfg : BotConfig) (h : cfg.sync_global = false) :
    ∀ (tr : List BotEv) (s : BotState), s.synced_per_guild = true →
      (botRun cfg s tr).2.countP isGuildSync = 0
      ∧ (botRun cfg s tr).1.synced_per_guild = true := by
  intro tr
  induction tr with
  | nil => intro s hf; simpa [botRun] using hf
  | cons e es ih =>
    intro s hf
    cases e with
    | ready ok =>
      have hs := syncPart_synced_true cfg ok s hf
      have hnext : (dmSchedule (syncPart cfg ok s).1).synced_per_guild = true := by
        rw [(dmSchedule_fields _).1, hs.1, hf]
      have hrec := ih (dmSchedule (syncPart cfg ok s).1) hnext
      simp [botRun, botStep, readyStep, hs.2 h, List.countP_append, hrec.1, hrec.2]
    | dmRun ok =>
      have hd := dmTaskStep_fields ok s
      have hrec := ih (dmTaskStep ok s).1 (by rw [hd.1, hf])
      simp [botRun, botStep, List.countP_append, hd.2.1, hrec.1, hrec.2]

lemma botRun_not_truthy (cfg : BotConfig) (h : cfg.sync_global = false)
    (ht : guildTruthy cfg.guild_id = false) :
    ∀ (tr : List BotEv) (s : BotState),
      (botRun cfg s tr).2.countP isGuildSync = 0 := by
  intro tr
  induction tr with
  | nil => intro s; simp [botRun]
  | cons e es ih =>
    intro s
    cases e with
    | ready ok =>
      have hs : syncPart cfg ok s = (s, []) := by
        unfold syncPart; simp [h, ht]
      simp [botRun, botStep, readyStep, hs, List.countP_append, ih]
    | dmRun ok =>
      have hd := dmTaskStep_fields ok s
      simp [botRun, botStep, List.countP_append, ih, hd.2.1]

lemma botRun_guild_count (cfg : BotConfig) (h : cfg.sync_global = false) :
    ∀ (tr : List BotEv) (s : BotState), allSyncOk tr = true →
      (botRun cfg s tr).2.countP isGuildSync ≤ (if s.synced_per_guild = true then 0 else 1) := by
  intro tr
  induction tr with
  | nil => intro s _; simp [botRun]
  | cons e es ih =>
    intro s hok
    cases e with
    | ready ok =>
      have hok' : ok = true ∧ allSyncOk es = true := by
        simpa [allSyncOk, List.all_cons] using hok
      obtain ⟨rfl, hok2⟩ := hok'
      by_cases hf : s.synced_per_guild = true
      · have hs := syncPart_synced_true cfg true s hf
        have hnext : (dmSchedule (syncPart cfg true s).1).synced_per_guild = true := by
          rw [(dmSchedule_fields _).1, hs.1, hf]
        have hrec := (botRun_after_synced cfg h es _ hnext).1
        simp [botRun, botStep, readyStep, hs.2 h, List.countP_append, hrec, hf]
      · have hf' : s.synced_per_guild = false := by
          cases hsf : s.synced_per_guild
          · rfl
          · exact absurd hsf hf
        by_cases ht : guildTruthy cfg.guild_id = true
        · have hsp : syncPart cfg true s =
              ({ s with synced_per_guild := true }, [BotOut.guildSync (cfg.guild_id.getD 0)]) := by
            unfold syncPart; simp [h, ht, hf']
          have hnext :
              (dmSchedule ({ s with synced_per_guild := true } : BotState)).synced_per_guild
                = true := by
            rw [(dmSchedule_fields _).1]
          have hrec := (botRun_after_synced cfg h es _ hnext).1
          simp [botRun, botStep, readyStep, hsp, List.countP_append, List.countP_cons,
            isGuildSync, hrec, hf']
        · have ht' : guildTruthy cfg.guild_id = false := by
            cases hgt : guildTruthy cfg.guild_id
            · rfl
            · exact absurd hgt ht
          have hsp : syncPart cfg true s = (s, []) := by
            unfold syncPart; simp [h, ht']
          have hrec := botRun_not_truthy cfg h ht' es (dmSchedule s)
          simp [botRun, botStep, readyStep, hsp, List.countP_append, hrec]
    | dmRun ok =>
      have hok2 : allSyncOk es = true := by
        simpa [allSyncOk, List.all_cons] using hok
      have hd := dmTaskStep_fields ok s
      have hrec := ih (dmTaskStep ok s).1 hok2
      rw [hd.1] at hrec
      simp [botRun, botStep, List.countP_append, hd.2.1]
      exact hrec

def cfgGlobal : BotConfig :=
  { token := "t", app_id := 1, owner_id := 2, guild_id := none, sync_global := true,
    yt_cookies := none, lavalink_host := "localhost", lavalink_port := 2333,
    lavalink_password := "youshallnotpass" }

def cfgGuild42 : BotConfig :=
  { token := "t", app_id := 1, owner_id := 2, guild_id := some 42, sync_global := false,
    yt_cookies := none, lavalink_host := "localhost", lavalink_port := 2333,
    lavalink_password := "youshallnotpass" }

/-- Claim C2 (counterexample): with `sync_global` configured, nothing guards
the global `tree.sync()` call, so a second firing of the ready event performs
a second global synchronization — synchronization is not once per process. -/
theorem global_sync_repeats_on_reready :
    (botRun cfgGlobal initBotState [BotEv.ready true, BotEv.ready true]).2
      = [BotOut.globalSync, BotOut.globalSync] := by
  rfl

/-- Claim C2 (amended): in global mode `on_ready` pushes the full command tree
on every ready event (once per ready event, not once per process); in guild
mode no global push ever happens, and when the sync calls succeed the
guild-scoped push happens at most once per process. -/
theorem command_sync_per_mode (cfg : BotConfig) (tr : List BotEv) :
    (cfg.sync_global = true →
      (botRun cfg initBotState tr).2.countP isGlobalSync = tr.countP isReadyEv)
    ∧ (cfg.sync_global = false →
      (botRun cfg initBotState tr).2.countP isGlobalSync = 0
      ∧ (allSyncOk tr = true →
          (botRun cfg initBotState tr).2.countP isGuildSync ≤ 1)) := by
  refine ⟨fun h => botRun_global_count cfg h tr _,
    fun h => ⟨botRun_no_global cfg h tr _, fun hok => ?_⟩⟩
  have hb := botRun_guild_count cfg h tr initBotState hok
  simpa [initBotState] using hb

/-- Claim C2 (witness): one ready event in global mode performs exactly one
global sync, and in guild mode two ready events perform no global sync and at
most one guild sync. -/
theorem command_sync_per_mode_witness :
    (botRun cfgGlobal initBotState [BotEv.ready true]).2.countP isGlobalSync = 1
    ∧ (botRun cfgGuild42 initBotState [BotEv.ready true, BotEv.ready true]).2.countP
        isGlobalSync = 0
    ∧ (botRun cfgGuild42 initBotState [BotEv.ready true, BotEv.ready true]).2.countP
        isGuildSync ≤ 1 := by
  refine ⟨?_, ?_, ?_⟩
  · have h := (command_sync_per_mode cfgGlobal [BotEv.ready true]).1 (by rfl)
    simpa using h
  · exact ((command_sync_per_mode cfgGuild42 [BotEv.ready true, BotEv.ready true]).2
      (by rfl)).1
  · exact ((command_sync_per_mode cfgGuild42 [BotEv.ready true, BotEv.ready true]).2
      (by rfl)).2 (by rfl)

/-- Claim C3: with `sync_global` false, the guild-scoped sync runs at most
once per process when the sync calls succeed; once `_synced_per_guild` is
set, any further sequence of ready events performs no guild sync; with no
truthy guild id configured no guild sync ever runs; and in this mode no
global sync runs either. -/
theorem guild_sync_at_most_once (cfg : BotConfig) (tr post : List BotEv)
    (hmode : cfg.sync_global = false) :
    (allSyncOk tr = true →
      (botRun cfg initBotState tr).2.countP isGuildSync ≤ 1)
    ∧ (∀ s : BotState, s.synced_per_guild = true →
        (botRun cfg s post).2.countP isGuildSync = 0)
    ∧ (guildTruthy cfg.guild_id = false →
        (botRun cfg initBotState tr).2.countP isGuildSync = 0)
    ∧ (botRun cfg initBotState tr).2.countP isGlobalSync = 0 := by
  refine ⟨fun hok => ?_, fun s hs => (botRun_after_synced cfg hmode post s hs).1,
    fun ht => botRun_not_truthy cfg hmode ht tr _,
    botRun_no_global cfg hmode tr _⟩
  have hb := botRun_guild_count cfg hmode tr initBotState hok
  simpa [initBotState] using hb

/-- Claim C3 (witness): the spec scenario — `SYNC_GLOBAL` unset, guild id 42:
the first ready event performs exactly one guild-42 sync and the second ready
event performs none. -/
theorem guild_sync_at_most_once_witness :
    (botRun cfgGuild42 initBotState [BotEv.ready true, BotEv.ready true]).2.countP
      isGuildSync ≤ 1
    ∧ (botRun cfgGuild42 ⟨true, false, 0⟩ [BotEv.ready true]).2.countP isGuildSync = 0
    ∧ (botRun cfgGuild42 initBotState [BotEv.ready true, BotEv.ready true]).2
        = [BotOut.guildSync 42] := by
  refine ⟨?_, ?_, by rfl⟩
  · exact (guild_sync_at_most_once cfgGuild42 [BotEv.ready true, BotEv.ready true]
      [] (by rfl)).1 (by rfl)
  · exact (guild_sync_at_most_once cfgGuild42 [] [BotEv.ready true] (by rfl)).2.1
      ⟨true, false, 0⟩ (by rfl)

def cfgNoGuild : BotConfig :=
  { token := "t", app_id := 1, owner_id := 2, guild_id := none, sync_global := false,
    yt_cookies := none, lavalink_host := "localhost", lavalink_port := 2333,
    lavalink_password := "youshallnotpass" }

/-- Claim C4 (counterexample): `_startup_dm_sent` is set only after the
scheduled task's `owner.send` succeeds, and the task itself never re-checks
the flag; if a second ready event fires before the first task has run (the
task starts with a 2-second `asyncio.sleep`), `on_ready` schedules a second
task and the startup DM is delivered twice in one process. -/
theorem startup_dm_double_send :
    (botRun cfgNoGuild initBotState
      [BotEv.ready true, BotEv.ready true, BotEv.dmRun true, BotEv.dmRun true]).2.countP
        isDmSend = 2 := by
  rfl

/-- Traces in which every ready event fires only when no scheduled startup-DM
task is still pending (each scheduled task runs before the next ready event). -/
def dmSerial (cfg : BotConfig) : BotState → List BotEv → Bool
  | _, [] => true
  | s, BotEv.ready ok :: es =>
    (s.pendingDM == 0) && dmSerial cfg (botStep cfg s (BotEv.ready ok)).1 es
  | s, BotEv.dmRun ok :: es =>
    dmSerial cfg (botStep cfg s (BotEv.dmRun ok)).1 es

lemma dmSchedule_sent_pending (s : BotState) :
    (s.startup_dm_sent = true → dmSchedule s = s)
    ∧ (s.startup_dm_sent = false → (dmSchedule s).pendingDM = s.pendingDM + 1) := by
  unfold dmSchedule
  constructor
  · intro h; simp [h]
  · intro h; simp [h]

lemma botRun_dm_bound (cfg : BotConfig) :
    ∀ (tr : List BotEv) (s : BotState), dmSerial cfg s tr = true →
      (s.startup_dm_sent = true → s.pendingDM = 0) → s.pendingDM ≤ 1 →
      (botRun cfg s tr).2.countP isDmSend ≤
        (if s.startup_dm_sent = true then 0 else 1) := by
  intro tr
  induction tr with
  | nil => intro s _ _ _; simp [botRun]
  | cons e es ih =>
    intro s hser hinv1 hinv2
    cases e with
    | ready ok =>
      have hser' : s.pendingDM = 0 ∧ dmSerial cfg (readyStep cfg ok s).1 es = true := by
        simpa [dmSerial, botStep] using hser
      have hsp := syncPart_dm_fields cfg ok s
      cases hsent : s.startup_dm_sent with
      | true =>
        have hds : dmSchedule (syncPart cfg ok s).1 = (syncPart cfg ok s).1 :=
          (dmSchedule_sent_pending _).1 (by rw [hsp.1, hsent])
        have hrec := ih (readyStep cfg ok s).1 hser'.2
          (by intro _; simp [readyStep, hds, hsp.2, hser'.1])
          (by simp [readyStep, hds, hsp.2, hser'.1])
        rw [readyStep, hds] at hrec
        have hsent' : (syncPart cfg ok s).1.startup_dm_sent = true := by
          rw [hsp.1, hsent]
        rw [hsent'] at hrec
        simp [botRun, botStep, readyStep, hds, List.countP_append,
          syncPart_no_dm cfg ok s, hsent]
        simpa using hrec
      | false =>
        have hpend : (dmSchedule (syncPart cfg ok s).1).pendingDM = s.pendingDM + 1 := by
          rw [(dmSchedule_sent_pending _).2 (by rw [hsp.1, hsent]), hsp.2]
        have hsent2 : (dmSchedule (syncPart cfg ok s).1).startup_dm_sent = false := by
          rw [(dmSchedule_fields _).2, hsp.1, hsent]
        have hrec := ih (readyStep cfg ok s).1 hser'.2
          (by intro hc; rw [readyStep] at hc; rw [hsent2] at hc; exact absurd hc (by simp))
          (by rw [readyStep, hpend, hser'.1])
        rw [readyStep, hsent2] at hrec
        simp [botRun, botStep, readyStep, List.countP_append,
          syncPart_no_dm cfg ok s, hsent]
        simpa using hrec
    | dmRun ok =>
      have hser' : dmSerial cfg (dmTaskStep ok s).1 es = true := by
        simpa [dmSerial, botStep] using hser
      by_cases hp : s.pendingDM = 0
      · have hstep : dmTaskStep ok s = (s, []) := by
          unfold dmTaskStep; simp [hp]
        have hrec := ih s (by rwa [hstep] at hser') hinv1 hinv2
        simpa [botRun, botStep, hstep, List.countP_append] using hrec
      · have hsent : s.startup_dm_sent = false := by
          cases hs : s.startup_dm_sent
          · rfl
          · exact absurd (hinv1 hs) hp
        cases ok with
        | true =>
          have hstep : dmTaskStep true s =
              ({ s with pendingDM := s.pendingDM - 1, startup_dm_sent := true },
               [BotOut.dmSend]) := by
            unfold dmTaskStep; simp [hp]
          have hrec := ih (dmTaskStep true s).1 hser'
            (by rw [hstep]; intro _; simp; omega)
            (by rw [hstep]; simp; omega)
          rw [hstep] at hrec
          have hrec0 :
              (botRun cfg
                ({ s with pendingDM := s.pendingDM - 1, startup_dm_sent := true } : BotState)
                es).2.countP isDmSend = 0 := by
            simpa using hrec
          simp [botRun, botStep, hstep, List.countP_append, List.countP_cons,
            isDmSend, hsent, hrec0]
        | false =>
          have hstep : dmTaskStep false s =
              ({ s with pendingDM := s.pendingDM - 1 }, []) := by
            unfold dmTaskStep; simp [hp]
          have hrec := ih (dmTaskStep false s).1 hser'
            (by rw [hstep]; intro hc; exact absurd hc (by simp [hsent]))
            (by rw [hstep]; simp; omega)
          rw [hstep] at hrec
          simp [hsent] at hrec
          simp [botRun, botStep, hstep, List.countP_append, hsent]
          exact hrec

/-- Claim C4 (amended): once `_startup_dm_sent` is set, a ready event
schedules no further DM task; and over any trace in which each scheduled DM
task runs before the next ready event fires (so the flag is up to date when
the guard on line 219 is checked), the startup DM is delivered at most once
per process — including when an earlier send attempt failed. Without that
serialization the DM can be delivered twice (see the counterexample). -/
theorem startup_dm_at_most_once (cfg : BotConfig) (tr : List BotEv)
    (hser : dmSerial cfg initBotState tr = true) :
    (botRun cfg initBotState tr).2.countP isDmSend ≤ 1
    ∧ (∀ (s : BotState) (ok : Bool), s.startup_dm_sent = true →
        (readyStep cfg ok s).1.pendingDM = s.pendingDM) := by
  constructor
  · have h := botRun_dm_bound cfg tr initBotState hser (fun _ => rfl) (by simp [initBotState])
    simpa [initBotState] using h
  · intro s ok hs
    have hsp := syncPart_dm_fields cfg ok s
    have hds : dmSchedule (syncPart cfg ok s).1 = (syncPart cfg ok s).1 :=
      (dmSchedule_sent_pending _).1 (by rw [hsp.1, hs])
    simp [readyStep, hds, hsp.2]

/-- Claim C4 (witness): first ready event schedules the DM task, the task
delivers and sets the flag, the second ready event (after a reconnect)
schedules nothing, so exactly one DM is sent. -/
theorem startup_dm_at_most_once_witness :
    (botRun cfgNoGuild initBotState
      [BotEv.ready true, BotEv.dmRun true, BotEv.ready true, BotEv.dmRun true]).2.countP
        isDmSend ≤ 1
    ∧ (botRun cfgNoGuild initBotState
      [BotEv.ready true, BotEv.dmRun true, BotEv.ready true, BotEv.dmRun true]).2.countP
        isDmSend = 1 := by
  exact ⟨(startup_dm_at_most_once cfgNoGuild
    [BotEv.ready true, BotEv.dmRun true, BotEv.ready true, BotEv.dmRun true] (by rfl)).1,
    by rfl⟩

/-!
Model of the audio-node health-check loop `_wavelink_health_check`
(`bot.py` lines 124-151). Each iteration: the `while not self.is_closed()`
condition is checked, then `asyncio.sleep(60)` elapses (a cancellation of
the task is observed at this suspension point), then the pool's node list
is checked (`otherExc` models any non-cancellation exception raised in the
body, caught by the outer `except Exception` on line 150), and if it is
empty a reconnect is attempted, whose own failure is caught by the inner
`except` on line 145. -/

/-- The environment one loop iteration observes. -/
structure Tick where
  closed : Bool
  cancelled : Bool
  otherExc : Bool
  nodesEmpty : Bool
  reconnectOk : Bool
deriving Repr, DecidableEq

/-- Why the loop stopped (or that the observed trace ran out). -/
inductive HealthStop : Type
  | closedStop : HealthStop
  | cancelledStop : HealthStop
  | traceEnded : HealthStop
deriving Repr, DecidableEq

/-- Run the health-check loop from time `t0` over a trace of iteration
environments; returns the timed reconnect attempts (time, success) and the
stop reason. Each surviving iteration advances the clock by the fixed
60-second sleep. -/
def healthRun (t0 : Nat) : List Tick → List (Nat × Bool) × HealthStop
  | [] => ([], HealthStop.traceEnded)
  | tk :: rest =>
    if tk.closed then ([], HealthStop.closedStop)
    else if tk.cancelled then ([], HealthStop.cancelledStop)
    else if tk.otherExc then healthRun (t0 + 60) rest
    else if tk.nodesEmpty then
      ((t0 + 60, tk.reconnectOk) :: (healthRun (t0 + 60) rest).1,
       (healthRun (t0 + 60) rest).2)
    else healthRun (t0 + 60) rest

/-- A tick at which the loop keeps running: the client is not closed and the
task was not cancelled. -/
def liveTick (tk : Tick) : Bool := !tk.closed && !tk.cancelled

lemma healthRun_times (tks : List Tick) :
    ∀ t0, ∀ a ∈ (healthRun t0 tks).1, ∃ k : Nat, 1 ≤ k ∧ a.1 = t0 + 60 * k := by
  induction tks with
  | nil => intro t0 a ha; simp [healthRun] at ha
  | cons tk rest ih =>
    intro t0 a ha
    unfold healthRun at ha
    split_ifs at ha with h1 h2 h3 h4
    · simp at ha
    · simp at ha
    · obtain ⟨k, hk, he⟩ := ih (t0 + 60) a ha
      exact ⟨k + 1, by omega, by omega⟩
    · rcases List.mem_cons.mp ha with rfl | ha'
      · exact ⟨1, le_refl 1, by omega⟩
      · obtain ⟨k, hk, he⟩ := ih (t0 + 60) a ha'
        exact ⟨k + 1, by omega, by omega⟩
    · obtain ⟨k, hk, he⟩ := ih (t0 + 60) a ha
      exact ⟨k + 1, by omega, by omega⟩

lemma healthRun_reconnects (pre : List Tick) :
    ∀ (t0 : Nat) (tk : Tick) (post : List Tick),
      (∀ p ∈ pre, liveTick p = true) →
      liveTick tk = true → tk.otherExc = false → tk.nodesEmpty = true →
      (t0 + 60 * (pre.length + 1), tk.reconnectOk) ∈
        (healthRun t0 (pre ++ tk :: post)).1 := by
  induction pre with
  | nil =>
    intro t0 tk post _ hlive hexc hne
    have h1 : tk.closed = false := by
      simp [liveTick] at hlive; exact hlive.1
    have h2 : tk.cancelled = false := by
      simp [liveTick] at hlive; exact hlive.2
    simp [healthRun, h1, h2, hexc, hne]
  | cons p ps ih =>
    intro t0 tk post hpre hlive hexc hne
    have hp : liveTick p = true := hpre p (List.mem_cons_self _ _)
    have hp1 : p.closed = false := by simp [liveTick] at hp; exact hp.1
    have hp2 : p.cancelled = false := by simp [liveTick] at hp; exact hp.2
    have hps : ∀ q ∈ ps, liveTick q = true :=
      fun q hq => hpre q (List.mem_cons_of_mem _ hq)
    have hrec := ih (t0 + 60) tk post hps hlive hexc hne
    have harith : t0 + 60 + 60 * (ps.length + 1) = t0 + 60 * (ps.length + 1 + 1) := by
      omega
    rw [harith] at hrec
    unfold healthRun
    simp only [List.cons_append]
    split_ifs with h1 h2 h3 h4
    · exact absurd h1 (by simp [hp1])
    · exact absurd h2 (by simp [hp2])
    · simpa using hrec
    · exact List.mem_cons_of_mem _ (by simpa using hrec)
    · simpa using hrec

lemma healthRun_survives (tks : List Tick) :
    ∀ t0, (∀ tk ∈ tks, liveTick tk = true) →
      (healthRun t0 tks).2 = HealthStop.traceEnded := by
  induction tks with
  | nil => intro t0 _; simp [healthRun]
  | cons tk rest ih =>
    intro t0 hall
    have htk := hall tk (List.mem_cons_self _ _)
    have h1 : tk.closed = false := by simp [liveTick] at htk; exact htk.1
    have h2 : tk.cancelled = false := by simp [liveTick] at htk; exact htk.2
    have hrest := ih (t0 + 60) (fun q hq => hall q (List.mem_cons_of_mem _ hq))
    unfold healthRun
    split_ifs with hc hca h3 h4 <;>
      simp_all

lemma healthRun_cancel (pre : List Tick) :
    ∀ (t0 : Nat) (tk : Tick) (post : List Tick),
      (∀ p ∈ pre, liveTick p = true) →
      tk.closed = false → tk.cancelled = true →
      (healthRun t0 (pre ++ tk :: post)).2 = HealthStop.cancelledStop
      ∧ (healthRun t0 (pre ++ tk :: post)).1 = (healthRun t0 pre).1 := by
  induction pre with
  | nil =>
    intro t0 tk post _ h1 h2
    constructor
    · simp [healthRun, h1, h2]
    · simp [healthRun, h1, h2]
  | cons p ps ih =>
    intro t0 tk post hpre h1 h2
    have hp : liveTick p = true := hpre p (List.mem_cons_self _ _)
    have hp1 : p.closed = false := by simp [liveTick] at hp; exact hp.1
    have hp2 : p.cancelled = false := by simp [liveTick] at hp; exact hp.2
    have hps : ∀ q ∈ ps, liveTick q = true :=
      fun q hq => hpre q (List.mem_cons_of_mem _ hq)
    have hrec := ih (t0 + 60) tk post hps h1 h2
    unfold healthRun
    simp only [List.cons_append]
    split_ifs with hc hca h3 h4
    · exact absurd hc (by simp [hp1])
    · exact absurd hca (by simp [hp2])
    · exact ⟨hrec.1, hrec.2⟩
    · exact ⟨hrec.1, by simp [hrec.2]⟩
    · exact ⟨hrec.1, hrec.2⟩

/-- Claim C5: the health-check loop ticks on the fixed 60-second grid (every
reconnect attempt happens at time start + 60k); on every tick it survives to
where the pool reports zero nodes it attempts a reconnect (recording that
attempt's success or failure); when no tick closes or cancels the task the
loop outlives the whole trace, whatever reconnect failures or other
exceptions occur; and a cancellation at a tick stops the loop, whose output
is exactly that of the preceding ticks — no further ticks run. -/
theorem health_check_loop (tks pre post : List Tick) (tk : Tick) (t0 : Nat) :
    (∀ a ∈ (healthRun t0 tks).1, ∃ k : Nat, 1 ≤ k ∧ a.1 = t0 + 60 * k)
    ∧ ((∀ p ∈ pre, liveTick p = true) → liveTick tk = true →
        tk.otherExc = false → tk.nodesEmpty = true →
        (t0 + 60 * (pre.length + 1), tk.reconnectOk) ∈
          (healthRun t0 (pre ++ tk :: post)).1)
    ∧ ((∀ q ∈ tks, liveTick q = true) →
        (healthRun t0 tks).2 = HealthStop.traceEnded)
    ∧ ((∀ p ∈ pre, liveTick p = true) → tk.closed = false → tk.cancelled = true →
        (healthRun t0 (pre ++ tk :: post)).2 = HealthStop.cancelledStop
        ∧ (healthRun t0 (pre ++ tk :: post)).1 = (healthRun t0 pre).1) := by
  exact ⟨healthRun_times tks t0,
    fun hpre hlive hexc hne => healthRun_reconnects pre t0 tk post hpre hlive hexc hne,
    healthRun_survives tks t0,
    fun hpre h1 h2 => healthRun_cancel pre t0 tk post hpre h1 h2⟩

/-- A health-check tick on which the client is open, the pool reports no
nodes, and the reconnect attempt fails. -/
def tickFail : Tick := ⟨false, false, false, true, false⟩

/-- A health-check tick at which the task receives the cancellation signal. -/
def tickCancel : Tick := ⟨false, true, false, false, false⟩

/-- Claim C5 (witness): two failed reconnect ticks at 60 and 120 seconds do
not stop the loop, and the cancellation on the third tick stops it with no
further ticks. -/
theorem health_check_loop_witness :
    (60, false) ∈ (healthRun 0 [tickFail, tickFail, tickCancel]).1
    ∧ (healthRun 0 [tickFail, tickFail, tickCancel]).2 = HealthStop.cancelledStop
    ∧ healthRun 0 [tickFail, tickFail, tickCancel]
        = ([(60, false), (120, false)], HealthStop.cancelledStop) := by
  refine ⟨?_, ?_, by rfl⟩
  · have h := (health_check_loop [tickFail, tickFail, tickCancel] []
      [tickFail, tickCancel] tickFail 0).2.1
      (by intro p hp; simp at hp) (by rfl) (by rfl) (by rfl)
    simpa using h
  · exact ((health_check_loop [tickFail, tickFail, tickCancel] [tickFail, tickFail]
      [] tickCancel 0).2.2.2 (by decide) (by rfl) (by rfl)).1

/-!
Model of the two global command-error handlers, `on_app_command_error`
(`bot.py` lines 260-290) and `on_command_error` (lines 292-321). A
`discord.Embed` is its title, description and colour; the cooldown value
`error.retry_after` (a number of seconds rendered by the `:.1f` format with
one decimal digit) is modelled in tenths of a second. The raw error object
of an unrecognised category carries its message text, which the handlers
only log — the user-facing embed is built from fixed strings alone. -/

inductive EmbedColor : Type
  | orange : EmbedColor
  | red : EmbedColor
  | green : EmbedColor
deriving Repr, DecidableEq

structure Embed where
  title : String
  description : String
  color : EmbedColor
deriving Repr, DecidableEq

/-- Python `f"{x:.1f}"` with `x` given in tenths of a second. -/
def formatRetry (tenths : Nat) : String :=
  toString (tenths / 10) ++ "." ++ toString (tenths % 10)

/-- The error categories `on_app_command_error` distinguishes. -/
inductive AppCmdError : Type
  | commandOnCooldown (retryTenths : Nat) : AppCmdError
  | missingPermissions : AppCmdError
  | other (msg : String) : AppCmdError
deriving Repr, DecidableEq

/-- How the ephemeral reply is delivered: through the interaction response
when none has been sent yet, else through a follow-up message. -/
inductive ReplyVia : Type
  | response : ReplyVia
  | followup : ReplyVia
deriving Repr, DecidableEq

structure AppReply where
  via : ReplyVia
  ephemeral : Bool
  embed : Embed
deriving Repr, DecidableEq

/-- `bot.py` lines 260-290: build the user-facing embed by error category
(cooldown, missing permissions, generic fallback) and send it ephemerally,
via `interaction.response` unless `interaction.response.is_done()`, in which
case via `interaction.followup`. -/
def on_app_command_error (responseDone : Bool) (error : AppCmdError) : AppReply :=
  let embed : Embed :=
    match error with
    | AppCmdError.commandOnCooldown t =>
      { title := "⏰ Command on Cooldown"
        description :=
          "Please wait " ++ formatRetry t ++ " seconds before using this command again."
        color := EmbedColor.orange }
    | AppCmdError.missingPermissions =>
      { title := "🚫 Missing Permissions"
        description := "You don't have the required permissions to use this command."
        color := EmbedColor.red }
    | AppCmdError.other _ =>
      { title := "❌ Command Error"
        description := "An error occurred while executing the command. Please try again later."
        color := EmbedColor.red }
  { via := if responseDone then ReplyVia.followup else ReplyVia.response
    ephemeral := true
    embed := embed }

/-- The error categories `on_command_error` distinguishes. -/
inductive PrefixCmdError : Type
  | commandNotFound : PrefixCmdError
  | missingPermissions : PrefixCmdError
  | commandOnCooldown (retryTenths : Nat) : PrefixCmdError
  | other (msg : String) : PrefixCmdError
deriving Repr, DecidableEq

/-- A reply sent with `ctx.send(embed=embed)`: an ordinary channel message,
visible to everyone (no ephemeral flag exists on `ctx.send`). -/
structure PrefixReply where
  ephemeral : Bool
  embed : Embed
deriving Repr, DecidableEq

/-- `bot.py` lines 292-321: `CommandNotFound` returns with no message; the
other categories build the same embeds as the slash handler and send them as
a normal channel reply. -/
def on_command_error (error : PrefixCmdError) : Option PrefixReply :=
  match error with
  | PrefixCmdError.commandNotFound => none
  | PrefixCmdError.missingPermissions =>
    some
      { ephemeral := false
        embed :=
          { title := "🚫 Missing Permissions"
            description := "You don't have the required permissions to use this command."
            color := EmbedColor.red } }
  | PrefixCmdError.commandOnCooldown t =>
    some
      { ephemeral := false
        embed :=
          { title := "⏰ Command on Cooldown"
            description :=
              "Please wait " ++ formatRetry t ++ " seconds before using this command again."
            color := EmbedColor.orange } }
  | PrefixCmdError.other _ =>
    some
      { ephemeral := false
        embed :=
          { title := "❌ Command Error"
            description := "An error occurred while executing the command. Please try again later."
            color := EmbedColor.red } }

/-- Claim C6: every slash-command error gets an ephemeral embed reply whose
shape depends only on the error category — the cooldown embed interpolates
exactly the remaining cooldown, the permissions and generic embeds are fixed
strings, and the embed for an unrecognised error is independent of the raw
error text; the reply goes through the interaction response when none has
been sent yet and through a follow-up otherwise. -/
theorem app_command_error_reply (done : Bool) (e : AppCmdError) :
    (on_app_command_error done e).ephemeral = true
    ∧ (on_app_command_error done e).via
        = (if done then ReplyVia.followup else ReplyVia.response)
    ∧ (∀ t, (on_app_command_error done (AppCmdError.commandOnCooldown t)).embed
        = { title := "⏰ Command on Cooldown"
            description :=
              "Please wait " ++ formatRetry t ++ " seconds before using this command again."
            color := EmbedColor.orange })
    ∧ (on_app_command_error done AppCmdError.missingPermissions).embed
        = { title := "🚫 Missing Permissions"
            description := "You don't have the required permissions to use this command."
            color := EmbedColor.red }
    ∧ (∀ msg, (on_app_command_error done (AppCmdError.other msg)).embed
        = { title := "❌ Command Error"
            description := "An error occurred while executing the command. Please try again later."
            color := EmbedColor.red }) := by
  refine ⟨rfl, rfl, fun t => rfl, rfl, fun msg => rfl⟩

/-- Claim C7: a prefix-command `CommandNotFound` produces no user-visible
message; missing-permissions and cooldown errors produce exactly the embeds
the slash handler builds for the same categories; every other error produces
the slash handler's generic failure embed, independent of the raw error
text; and every message the handler does send is a normal non-ephemeral
channel reply. -/
theorem prefix_command_error_reply (e : PrefixCmdError) :
    on_command_error PrefixCmdError.commandNotFound = none
    ∧ (∀ t, on_command_error (PrefixCmdError.commandOnCooldown t)
        = some { ephemeral := false
                 embed := (on_app_command_error false
                   (AppCmdError.commandOnCooldown t)).embed })
    ∧ on_command_error PrefixCmdError.missingPermissions
        = some { ephemeral := false
                 embed := (on_app_command_error false
                   AppCmdError.missingPermissions).embed }
    ∧ (∀ msg, on_command_error (PrefixCmdError.other msg)
        = some { ephemeral := false
                 embed := (on_app_command_error false (AppCmdError.other "")).embed })
    ∧ (∀ r, on_command_error e = some r → r.ephemeral = false) := by
  refine ⟨rfl, fun t => rfl, rfl, fun msg => rfl, fun r hr => ?_⟩
  cases e <;> simp [on_command_error] at hr <;> simp [← hr]

/-- Claim C7 (witness): on a concrete unrecognised error the prefix handler
sends the generic failure embed as a non-ephemeral channel message. -/
theorem prefix_command_error_reply_witness :
    on_command_error (PrefixCmdError.other "boom")
      = some { ephemeral := false
               embed := (on_app_command_error false (AppCmdError.other "")).embed }
    ∧ ({ ephemeral := false
         embed := (on_app_command_error false (AppCmdError.other "")).embed }
           : PrefixReply).ephemeral = false := by
  exact ⟨(prefix_command_error_reply (PrefixCmdError.other "boom")).2.2.2.1 "boom",
    (prefix_command_error_reply (PrefixCmdError.other "boom")).2.2.2.2 _
      ((prefix_command_error_reply (PrefixCmdError.other "boom")).2.2.2.1 "boom")⟩
